import Mathlib

/-!
Verification of the realtime gateway protocol client of the `cli` repository
(`src/state/ws/mod.rs`).  The websocket session worker, its heartbeat
bookkeeping, the frame decoder `parse_message`, and the public handle API
(`new`, `recieve_message`, `send_message`, `close`) are shallowly embedded as
pure Lean functions; the event loop body is a step function over the mutable
client state, with transport writes, inbound-queue pushes, warnings and panics
made explicit outputs.  Instants are modelled as natural-number timestamps
(milliseconds); the external zlib inflater and the serde deserializer are
function parameters.
-/

namespace Cli

/-- Modelled from the spec: `OpCodes` lives in `src/state/ws/types.rs`, which is
not present under `src/`; §2/§3 of the spec fix the closed operation vocabulary
{Hello, Identify, Heartbeat, HeartbeatAck, Dispatch} used by the match arms of
`mod.rs`. -/
inductive OpCodes where
  | Dispatch
  | Hello
  | Identify
  | Heartbeat
  | HeartbeatAck
  deriving Repr, DecidableEq

/-- Modelled from the spec: `SocketMessage<T>` lives in `src/state/ws/types.rs`,
absent from `src/`; §3 gives the envelope shape `{ operation, optional payload }`,
matching every use `SocketMessage { op, d }` in `mod.rs`. -/
structure SocketMessage (T : Type) where
  op : OpCodes
  d : Option T
  deriving Repr, DecidableEq

/-- Modelled from the spec: `SocketHello` lives in `src/state/ws/types.rs`,
absent from `src/`; §3 `HelloPayload` is `{ heartbeat_interval_ms : integer }`,
read as `hello.d.unwrap().heartbeat_interval` at `mod.rs` line 84. -/
structure SocketHello where
  heartbeat_interval : Nat
  deriving Repr, DecidableEq

/-- Modelled from the spec: `LeapEdgeAuthParams` lives in
`src/state/ws/types.rs`, absent from `src/`; §3 `IdentifyPayload` is
`{ project_id, token }`, matching the construction in `update_token`. -/
structure LeapEdgeAuthParams where
  project_id : String
  token : String
  deriving Repr, DecidableEq

/-- Handle-side view of the two capacity-1 mpsc channels (`SocketChannels` of
`mod.rs` lines 33-37).  `inboundBuffer` is the queued content of the inbound
channel (each element the payload value whose JSON string was pushed;
`none` is the `"null"` string), `inboundSenderAlive` is whether the worker
still holds the inbound sender, `outboundReceiverAlive` whether the worker
still holds the outbound receiver. -/
structure SocketChannels (V : Type) where
  inboundBuffer : List (Option V)
  inboundSenderAlive : Bool
  outboundReceiverAlive : Bool
  deriving Repr, DecidableEq

/-- `WebsocketClient` of `mod.rs` lines 24-31.  `threadAlive` stands for
`thread : Option<JoinHandle<()>>`; `heartbeat_instants` is the pair
`(Option<Instant>, Option<Instant>)` of (sent_at, acked_at) timestamps. -/
structure WebsocketClient (V : Type) where
  auth : Option LeapEdgeAuthParams
  threadAlive : Bool
  channels : Option (SocketChannels V)
  last_heartbeat_acknowledged : Bool
  heartbeat_instants : Option Nat × Option Nat
  deriving Repr, DecidableEq

/-- `WebsocketClient::new` (`mod.rs` lines 40-47): all fields from
`Default` (None / false) except `last_heartbeat_acknowledged = true`. -/
def WebsocketClient.new (V : Type) : WebsocketClient V :=
  { auth := none
    threadAlive := false
    channels := none
    last_heartbeat_acknowledged := true
    heartbeat_instants := (none, none) }

/-- `WebsocketClient::close` (`mod.rs` lines 269-282): drop channels, abort
and drop the worker, clear credentials, reset heartbeat bookkeeping. -/
def WebsocketClient.close {V : Type} (c : WebsocketClient V) : WebsocketClient V :=
  { c with
    channels := none
    threadAlive := false
    auth := none
    heartbeat_instants := (none, none)
    last_heartbeat_acknowledged := true }

/-- `WebsocketClient::update_token` (`mod.rs` lines 50-55). -/
def WebsocketClient.update_token {V : Type} (c : WebsocketClient V) (token : String) :
    WebsocketClient V :=
  { c with auth := some { project_id := "project_MzA0MDgwOTQ2MDEwODQ5NzQ", token } }

/-- A transport frame as classified by `tungstenite` (`Message` in
`parse_message`, `mod.rs` lines 198-235): text, binary, close, or any other
kind (ping/pong/raw frame).  Byte content is a list of byte values. -/
inductive Message where
  | text (bytes : List Nat)
  | binary (bytes : List Nat)
  | close
  | other
  deriving Repr, DecidableEq

/-- Result of code that either produces a value or panics with a message. -/
inductive ParseOutcome (T : Type) where
  | ok (value : T)
  | panicked (msg : String)
  deriving Repr, DecidableEq

/-- `WebsocketClient::parse_message` (`mod.rs` lines 198-235).
`inflate` models the external zlib decoder (`ZlibDecoder::read_to_end`,
`none` = decompression failure) and `deserialize` models
`serde_json::from_str` / `from_slice` for the target type `T`
(`none` = parse failure).  Text frames are parsed directly; binary frames are
fully inflated and then parsed; close frames panic; any other frame kind
panics. -/
def parse_message {T : Type} (inflate : List Nat → Option (List Nat))
    (deserialize : List Nat → Option T) : Message → ParseOutcome T
  | Message.text bytes =>
    match deserialize bytes with
    | some v => ParseOutcome.ok v
    | none => ParseOutcome.panicked "Failed to parse message"
  | Message.binary bytes =>
    match inflate bytes with
    | some buff =>
      match deserialize buff with
      | some v => ParseOutcome.ok v
      | none => ParseOutcome.panicked "Failed to deflate message"
    | none => ParseOutcome.panicked "Failed to read message"
  | Message.close => ParseOutcome.panicked "Socket closed unexpectedly"
  | Message.other => ParseOutcome.panicked "received unexpected message type"

/-- Completion time of the i-th tick (0-indexed) of a tokio
`interval(Duration::from_millis p)` created at time `t0`: the first tick
completes immediately, each subsequent tick `p` ms later. -/
def tickTime (t0 p i : Nat) : Nat := t0 + p * i

/-- Result of the handshake prelude of `WebsocketClient::connect`
(`mod.rs` lines 74-103): the extracted heartbeat period, how many interval
ticks were consumed before the event loop (line 91), the messages queued on
the outbound channel (the Identify envelope, lines 93-103), and the frames
written directly to the transport during the tick consumption (none). -/
structure HandshakeOut where
  heartbeatPeriod : Nat
  ticksConsumed : Nat
  queuedOutbound : List (SocketMessage (Option LeapEdgeAuthParams))
  transportWrites : List (SocketMessage Unit)
  deriving Repr, DecidableEq

/-- Handshake prelude of `WebsocketClient::connect` (`mod.rs` lines 74-103),
applied to the already-parsed first message.  `hello.d.unwrap()` (line 84)
panics if the payload is absent; otherwise the heartbeat interval is armed,
one tick consumed with no action, and Identify queued on the outbound
channel. -/
def connectHandshake (socket_auth : Option LeapEdgeAuthParams)
    (hello : SocketMessage SocketHello) : ParseOutcome HandshakeOut :=
  match hello.d with
  | some h =>
    ParseOutcome.ok
      { heartbeatPeriod := h.heartbeat_interval
        ticksConsumed := 1
        queuedOutbound := [{ op := OpCodes.Identify, d := some socket_auth }]
        transportWrites := [] }
  | none => ParseOutcome.panicked "called Option::unwrap on a None value"

/-- One ready event serviced by the `tokio::select!` loop of `connect`
(`mod.rs` lines 105-190): a successfully parsed inbound frame, a transport
read error (`Err` arm, lines 144-148), end of the inbound stream (`None` arm),
an outbound command string from the internal channel, the internal channel
closing, or a heartbeat timer tick. -/
inductive GatewayEvent (V : Type) where
  | frame (m : SocketMessage V)
  | readError
  | streamEnd
  | internal (s : String)
  | internalClosed
  | tick
  deriving Repr, DecidableEq

/-- Observable outcome of one event-loop iteration: the updated client state,
the envelopes the worker serialized and wrote to the transport itself, the
verbatim strings relayed from the outbound channel to the transport, the
payload values pushed onto the inbound channel, warning log lines, the latency
value computed for the heartbeat-ack debug log (when evaluated), and the panic
message if the iteration panicked. -/
structure StepOut (V : Type) where
  state : WebsocketClient V
  sentEnvelopes : List (SocketMessage V)
  relayed : List String
  pushed : List (Option V)
  warnings : List String
  latency : Option Nat
  panics : Option String
  deriving Repr, DecidableEq

/-- One iteration of the event loop of `WebsocketClient::connect`
(`mod.rs` lines 105-190).  `debugEnabled` is whether debug-level logging is
enabled at runtime (the `log::debug!` macro evaluates its arguments only
then); `now` is the current instant in ms.

* `HeartbeatAck` (lines 112-119): set `last_heartbeat_acknowledged = true`,
  set acked_at (`heartbeat_instants.1`) to now; the debug log computes
  `acked_at.unwrap().duration_since(sent_at.unwrap())`, which panics when
  sent_at is `None`.
* `Heartbeat` (lines 121-134): echo a Heartbeat envelope with the same `d`
  back to the transport; a send error is only logged.
* `Dispatch` (lines 136-138): push the serialized payload onto the inbound
  channel.
* any other opcode (line 141): ignored.
* read error (lines 144-148): push the `"null"` sentinel onto the inbound
  channel and continue.
* stream end (line 152): nothing.
* outbound command (lines 157-167): write the string verbatim to the
  transport.
* timer tick (lines 170-188): if the last heartbeat was not acknowledged,
  log a zombie-connection warning, else clear the flag (either way the flag
  ends false); set `heartbeat_instants = (Some now, None)`; write one
  untagged Heartbeat envelope. -/
def eventLoopStep {V : Type} (debugEnabled : Bool) (now : Nat)
    (c : WebsocketClient V) : GatewayEvent V → StepOut V
  | GatewayEvent.frame m =>
    match m.op with
    | OpCodes.HeartbeatAck =>
      let c' := { c with
        last_heartbeat_acknowledged := true
        heartbeat_instants := (c.heartbeat_instants.1, some now) }
      if debugEnabled then
        match c.heartbeat_instants.1 with
        | some sent =>
          { state := c', sentEnvelopes := [], relayed := [], pushed := []
            warnings := [], latency := some (now - sent), panics := none }
        | none =>
          { state := c', sentEnvelopes := [], relayed := [], pushed := []
            warnings := [], latency := none
            panics := some "called Option::unwrap on a None value" }
      else
        { state := c', sentEnvelopes := [], relayed := [], pushed := []
          warnings := [], latency := none, panics := none }
    | OpCodes.Heartbeat =>
      { state := c, sentEnvelopes := [{ op := OpCodes.Heartbeat, d := m.d }]
        relayed := [], pushed := [], warnings := [], latency := none
        panics := none }
    | OpCodes.Dispatch =>
      { state := c, sentEnvelopes := [], relayed := [], pushed := [m.d]
        warnings := [], latency := none, panics := none }
    | _ =>
      { state := c, sentEnvelopes := [], relayed := [], pushed := []
        warnings := [], latency := none, panics := none }
  | GatewayEvent.readError =>
    { state := c, sentEnvelopes := [], relayed := [], pushed := [none]
      warnings := [], latency := none, panics := none }
  | GatewayEvent.streamEnd =>
    { state := c, sentEnvelopes := [], relayed := [], pushed := []
      warnings := [], latency := none, panics := none }
  | GatewayEvent.internal s =>
    { state := c, sentEnvelopes := [], relayed := [s], pushed := []
      warnings := [], latency := none, panics := none }
  | GatewayEvent.internalClosed =>
    { state := c, sentEnvelopes := [], relayed := [], pushed := []
      warnings := [], latency := none, panics := none }
  | GatewayEvent.tick =>
    { state := { c with
        last_heartbeat_acknowledged := false
        heartbeat_instants := (some now, none) }
      sentEnvelopes := [{ op := OpCodes.Heartbeat, d := none }]
      relayed := [], pushed := []
      warnings :=
        if c.last_heartbeat_acknowledged then []
        else ["Possible zombie connection: no heartbeat ack"]
      latency := none, panics := none }

/-- Behavior of one call on the current state: still suspended, or returned. -/
inductive Poll (α : Type) where
  | pending
  | ready (value : α)
  deriving Repr, DecidableEq

/-- `WebsocketClient::recieve_message` (`mod.rs` lines 237-249).  With no
channels the call returns `None` at once; otherwise it awaits the inbound
mpsc receiver: a buffered message is returned (deserialized), an empty buffer
with a live sender suspends, and an empty buffer with the sender dropped
returns `None`. -/
def recieve_message {V : Type} (c : WebsocketClient V) :
    Poll (Option (Option V)) × WebsocketClient V :=
  match c.channels with
  | some ch =>
    match ch.inboundBuffer with
    | m :: rest =>
      (Poll.ready (some m),
        { c with channels := some { ch with inboundBuffer := rest } })
    | [] =>
      if ch.inboundSenderAlive then (Poll.pending, c) else (Poll.ready none, c)
  | none => (Poll.ready none, c)

/-- `WebsocketClient::send_message` (`mod.rs` lines 253-267).  With no
channels it fails at once with "Not connected"; otherwise it sends on the
outbound mpsc channel, erring if the worker dropped the receiver.  The method
takes `&self` and never mutates the client. -/
def send_message {V : Type} (c : WebsocketClient V) (_message : String) :
    Poll (Except String Unit) :=
  match c.channels with
  | some ch =>
    if ch.outboundReceiverAlive then Poll.ready (Except.ok ())
    else Poll.ready (Except.error "channel closed")
  | none => Poll.ready (Except.error "Not connected")

/-- C1: for a session whose handshake completes with a valid Hello carrying
heartbeat interval `N`, the handshake extracts period `N`, consumes exactly
one interval tick while writing no frame to the transport (only the Identify
envelope is queued), that consumed tick is the one completing immediately at
handshake time `t0`, and every tick serviced by the event loop afterwards —
in particular the one transmitting the first client Heartbeat — completes no
earlier than `N` ms after handshake completion. -/
theorem C1_first_heartbeat_delayed (socket_auth : Option LeapEdgeAuthParams)
    (N t0 j : Nat) :
    connectHandshake socket_auth
        { op := OpCodes.Hello, d := some { heartbeat_interval := N } } =
      ParseOutcome.ok
        { heartbeatPeriod := N
          ticksConsumed := 1
          queuedOutbound := [{ op := OpCodes.Identify, d := some socket_auth }]
          transportWrites := [] } ∧
    tickTime t0 N 0 = t0 ∧
    t0 + N ≤ tickTime t0 N (1 + j) := by
  refine ⟨rfl, by simp [tickTime], ?_⟩
  have h : N * (1 + j) = N + N * j := by ring
  simp only [tickTime, h]
  omega

/-- C2: handling a heartbeat timer tick emits the zombie-connection liveness
warning exactly when the previous heartbeat was unacknowledged, and
unconditionally sets `last_heartbeat_acknowledged = false` and sent_at = now,
writes exactly one untagged Heartbeat envelope to the transport, pushes
nothing inbound, and takes no corrective action: the resulting state does not
depend on whether the previous heartbeat was acknowledged. -/
theorem C2_tick_effects {V : Type} (debugEnabled : Bool) (now : Nat)
    (c : WebsocketClient V) :
    ((eventLoopStep debugEnabled now c GatewayEvent.tick).warnings =
      if c.last_heartbeat_acknowledged then []
      else ["Possible zombie connection: no heartbeat ack"]) ∧
    (eventLoopStep debugEnabled now c GatewayEvent.tick).state.last_heartbeat_acknowledged
      = false ∧
    (eventLoopStep debugEnabled now c GatewayEvent.tick).state.heartbeat_instants
      = (some now, none) ∧
    (eventLoopStep debugEnabled now c GatewayEvent.tick).sentEnvelopes
      = [{ op := OpCodes.Heartbeat, d := none }] ∧
    (eventLoopStep debugEnabled now c GatewayEvent.tick).relayed = [] ∧
    (eventLoopStep debugEnabled now c GatewayEvent.tick).pushed = [] ∧
    (eventLoopStep debugEnabled now c GatewayEvent.tick).panics = none ∧
    (eventLoopStep debugEnabled now c GatewayEvent.tick).state =
      (eventLoopStep debugEnabled now
        { c with last_heartbeat_acknowledged := true } GatewayEvent.tick).state :=
  ⟨rfl, rfl, rfl, rfl, rfl, rfl, rfl, rfl⟩

/-- C3 counterexample: with debug logging enabled and no client Heartbeat yet
sent this session (sent_at absent, as on a fresh client), processing a
HeartbeatAck frame panics at the `unwrap` of sent_at inside the latency debug
log — refuting the claim that this processing never fails and that an absent
sent_at is ignored. -/
theorem C3_ack_unwrap_panics :
    (eventLoopStep (V := Nat) true 5 (WebsocketClient.new Nat)
        (GatewayEvent.frame { op := OpCodes.HeartbeatAck, d := none })).panics =
      some "called Option::unwrap on a None value" := rfl

/-- C3 amended: processing a HeartbeatAck frame sets acked_at = now and
`last_heartbeat_acknowledged = true` and leaves sent_at unchanged; the latency
acked_at - sent_at is computed (for the debug log) only when debug logging is
enabled, and equals now - sent_at exactly when sent_at is present; when
sent_at is absent and debug logging is enabled the computation panics
(`unwrap` on None) rather than being ignored; otherwise processing never
fails. No frame is written and nothing is pushed inbound. -/
theorem C3_ack_effects {V : Type} (debugEnabled : Bool) (now : Nat)
    (c : WebsocketClient V) (d : Option V) :
    ((eventLoopStep debugEnabled now c
        (GatewayEvent.frame { op := OpCodes.HeartbeatAck, d := d })).state.last_heartbeat_acknowledged
      = true) ∧
    ((eventLoopStep debugEnabled now c
        (GatewayEvent.frame { op := OpCodes.HeartbeatAck, d := d })).state.heartbeat_instants
      = (c.heartbeat_instants.1, some now)) ∧
    ((eventLoopStep debugEnabled now c
        (GatewayEvent.frame { op := OpCodes.HeartbeatAck, d := d })).latency =
      if debugEnabled then c.heartbeat_instants.1.map (fun sent => now - sent)
      else none) ∧
    ((eventLoopStep debugEnabled now c
        (GatewayEvent.frame { op := OpCodes.HeartbeatAck, d := d })).panics =
      if debugEnabled = true ∧ c.heartbeat_instants.1 = none then
        some "called Option::unwrap on a None value"
      else none) ∧
    ((eventLoopStep debugEnabled now c
        (GatewayEvent.frame { op := OpCodes.HeartbeatAck, d := d })).sentEnvelopes = []) ∧
    ((eventLoopStep debugEnabled now c
        (GatewayEvent.frame { op := OpCodes.HeartbeatAck, d := d })).pushed = []) := by
  cases debugEnabled <;>
    rcases hs : c.heartbeat_instants.1 with _ | sent <;>
      simp [eventLoopStep, hs]

/-- C4: an inbound Heartbeat frame carrying a tag makes the worker immediately
write back a Heartbeat envelope carrying the same tag, and leaves the whole
client state — in particular `last_heartbeat_acknowledged`, sent_at and
acked_at — unchanged, with nothing pushed inbound and no panic. -/
theorem C4_server_heartbeat_echo {V : Type} (debugEnabled : Bool) (now : Nat)
    (c : WebsocketClient V) (tag : V) :
    ((eventLoopStep debugEnabled now c
        (GatewayEvent.frame { op := OpCodes.Heartbeat, d := some tag })).sentEnvelopes =
      [{ op := OpCodes.Heartbeat, d := some tag }]) ∧
    ((eventLoopStep debugEnabled now c
        (GatewayEvent.frame { op := OpCodes.Heartbeat, d := some tag })).state = c) ∧
    ((eventLoopStep debugEnabled now c
        (GatewayEvent.frame { op := OpCodes.Heartbeat, d := some tag })).pushed = []) ∧
    ((eventLoopStep debugEnabled now c
        (GatewayEvent.frame { op := OpCodes.Heartbeat, d := some tag })).relayed = []) ∧
    ((eventLoopStep debugEnabled now c
        (GatewayEvent.frame { op := OpCodes.Heartbeat, d := some tag })).panics = none) :=
  ⟨rfl, rfl, rfl, rfl, rfl⟩

/-- C5: processing an inbound frame pushes its payload onto the inbound queue
exactly when its operation code is Dispatch (and then pushes exactly that
payload), so payloads of Hello, Identify, Heartbeat and HeartbeatAck frames
are never pushed; and `recieve_message` on a client whose inbound buffer
holds a pushed payload returns exactly that payload. -/
theorem C5_dispatch_only_observable {V : Type} (debugEnabled : Bool) (now : Nat)
    (c : WebsocketClient V) (m : SocketMessage V)
    (x : Option V) (rest : List (Option V)) (sa ra : Bool)
    (auth : Option LeapEdgeAuthParams) (th ack : Bool)
    (hi : Option Nat × Option Nat) :
    ((eventLoopStep debugEnabled now c (GatewayEvent.frame m)).pushed =
      if m.op = OpCodes.Dispatch then [m.d] else []) ∧
    (recieve_message
        { auth := auth, threadAlive := th
          channels := some
            { inboundBuffer := x :: rest, inboundSenderAlive := sa
              outboundReceiverAlive := ra }
          last_heartbeat_acknowledged := ack, heartbeat_instants := hi }).1 =
      Poll.ready (some x) := by
  constructor
  · rcases m with ⟨op, d⟩
    cases op
    case HeartbeatAck =>
      cases debugEnabled
      · simp [eventLoopStep]
      · rcases hs : c.heartbeat_instants.1 with _ | sent <;>
          simp [eventLoopStep, hs]
    all_goals simp [eventLoopStep]
  · rfl

/-- C6: decoding a binary frame holding the zlib-compressed structured
encoding of a value yields the same result as decoding a text frame holding
the plain structured encoding, given the zlib library round-trip contract
(inflating a deflated buffer restores it) and that the encoding deserializes. -/
theorem C6_binary_text_equivalent {T : Type}
    (inflate : List Nat → Option (List Nat)) (deflate : List Nat → List Nat)
    (deserialize : List Nat → Option T) (encoded : List Nat) (x : T)
    (hinflate : inflate (deflate encoded) = some encoded)
    (hdeser : deserialize encoded = some x) :
    parse_message inflate deserialize (Message.binary (deflate encoded)) =
      parse_message inflate deserialize (Message.text encoded) := by
  simp [parse_message, hinflate, hdeser]

/-- C6 witness: the round-trip equality at a concrete codec and input. -/
theorem C6_binary_text_equivalent_witness :
    parse_message (T := Nat) some (fun b => some b.length)
        (Message.binary (id [7, 8])) =
      parse_message some (fun b => some b.length) (Message.text [7, 8]) :=
  C6_binary_text_equivalent some id (fun b => some b.length) [7, 8] 2 rfl rfl

/-- C7 counterexample: after the worker died on a close frame (the inbound
sender is dropped) a Dispatch payload already buffered in the capacity-1
inbound channel is still returned by the next `recieve_message` call, which
therefore does not return None — refuting "every subsequent call to
receive_message returns None". -/
theorem C7_buffered_after_close :
    ((recieve_message
        { auth := none, threadAlive := true
          channels := some
            { inboundBuffer := [some 42], inboundSenderAlive := false
              outboundReceiverAlive := false }
          last_heartbeat_acknowledged := true
          heartbeat_instants := (none, none) } :
        Poll (Option (Option Nat)) × WebsocketClient Nat).1 =
      Poll.ready (some (some 42))) ∧
    ((recieve_message
        { auth := none, threadAlive := true
          channels := some
            { inboundBuffer := [some 42], inboundSenderAlive := false
              outboundReceiverAlive := false }
          last_heartbeat_acknowledged := true
          heartbeat_instants := (none, none) } :
        Poll (Option (Option Nat)) × WebsocketClient Nat).1 ≠
      Poll.ready none) := by
  exact ⟨rfl, by decide⟩

/-- C7 amended: a close frame makes `parse_message` panic ("Socket closed
unexpectedly"), terminating the worker task so the inbound sender is dropped;
the closure is surfaced to callers as channel closure: once the inbound
buffer is empty, every subsequent `recieve_message` call returns None (a
payload buffered before the close is still delivered first). -/
theorem C7_close_frame {T V : Type} (inflate : List Nat → Option (List Nat))
    (deserialize : List Nat → Option T)
    (auth : Option LeapEdgeAuthParams) (th ra ack : Bool)
    (hi : Option Nat × Option Nat) :
    (parse_message inflate deserialize Message.close =
      ParseOutcome.panicked "Socket closed unexpectedly") ∧
    ((recieve_message (V := V)
        { auth := auth, threadAlive := th
          channels := some
            { inboundBuffer := [], inboundSenderAlive := false
              outboundReceiverAlive := ra }
          last_heartbeat_acknowledged := ack, heartbeat_instants := hi }).1 =
      Poll.ready none) :=
  ⟨rfl, rfl⟩

/-- C8: on a transport-level read failure the event loop pushes the `"null"`
sentinel (the serialization of an absent value) onto the inbound queue and
continues: no panic, no frame written, and the session state is unchanged
(no termination, no reconnection). -/
theorem C8_read_error_sentinel {V : Type} (debugEnabled : Bool) (now : Nat)
    (c : WebsocketClient V) :
    ((eventLoopStep debugEnabled now c GatewayEvent.readError).pushed = [none]) ∧
    ((eventLoopStep debugEnabled now c GatewayEvent.readError).state = c) ∧
    ((eventLoopStep debugEnabled now c GatewayEvent.readError).sentEnvelopes = []) ∧
    ((eventLoopStep debugEnabled now c GatewayEvent.readError).relayed = []) ∧
    ((eventLoopStep debugEnabled now c GatewayEvent.readError).panics = none) :=
  ⟨rfl, rfl, rfl, rfl, rfl⟩

/-- C9: on a handle whose channels are absent — as after `new` (connect never
called) or after `close` — `recieve_message` returns None immediately
(ready, not pending) and leaves the state unchanged, and `send_message` fails
immediately with the "Not connected" error (the method takes the client
immutably, so no state changes). -/
theorem C9_not_connected {V : Type} (auth : Option LeapEdgeAuthParams)
    (th ack : Bool) (hi : Option Nat × Option Nat) (msg : String)
    (c0 : WebsocketClient V) :
    ((recieve_message (V := V)
        { auth := auth, threadAlive := th, channels := none
          last_heartbeat_acknowledged := ack, heartbeat_instants := hi }).1 =
      Poll.ready none) ∧
    ((recieve_message (V := V)
        { auth := auth, threadAlive := th, channels := none
          last_heartbeat_acknowledged := ack, heartbeat_instants := hi }).2 =
      { auth := auth, threadAlive := th, channels := none
        last_heartbeat_acknowledged := ack, heartbeat_instants := hi }) ∧
    (send_message (V := V)
        { auth := auth, threadAlive := th, channels := none
          last_heartbeat_acknowledged := ack, heartbeat_instants := hi } msg =
      Poll.ready (Except.error "Not connected")) ∧
    (WebsocketClient.new V).channels = none ∧
    (WebsocketClient.close c0).channels = none :=
  ⟨rfl, rfl, rfl, rfl, rfl⟩

/-- C10: both `new` and `close` establish `last_heartbeat_acknowledged = true`,
absent sent_at and acked_at, and cleared credentials; consequently the first
heartbeat tick of a fresh or freshly closed session emits no
zombie-connection warning. -/
theorem C10_reset_invariant {V : Type} (c : WebsocketClient V)
    (debugEnabled : Bool) (now : Nat) :
    (WebsocketClient.new V).last_heartbeat_acknowledged = true ∧
    (WebsocketClient.new V).heartbeat_instants = (none, none) ∧
    (WebsocketClient.new V).auth = none ∧
    (WebsocketClient.close c).last_heartbeat_acknowledged = true ∧
    (WebsocketClient.close c).heartbeat_instants = (none, none) ∧
    (WebsocketClient.close c).auth = none ∧
    (eventLoopStep debugEnabled now (WebsocketClient.new V)
      GatewayEvent.tick).warnings = [] ∧
    (eventLoopStep debugEnabled now (WebsocketClient.close c)
      GatewayEvent.tick).warnings = [] :=
  ⟨rfl, rfl, rfl, rfl, rfl, rfl, rfl, rfl⟩

end Cli
